import Mathlib

/-!
A shallow embedding of the core of the `microservice-library` backend
(gateway + Collection/Book/Borrow services), faithful to the Go source.

Conventions of the embedding:

* Mongo ObjectIDs are modelled as their 24-character hex strings
  (`primitive.ObjectID.Hex()`); the zero ObjectID is the all-zero string.
* `time.Time` is modelled as a natural number of seconds; the zero value of
  `time.Time` is `0`, and `AddDate(0,0,7)` is `+ 7 * secondsPerDay`.
* Redis is modelled as an association list for string keys (`GET`/`SET`/`DEL`)
  plus an association list for set keys (`SADD`/`SREM`/`SMEMBERS`/`EXISTS`);
  an empty set key does not exist, exactly as in Redis.
* JSON payloads in the string cache are a tagged value (`CacheVal`); decoding
  into a given Go type succeeds exactly when the tag matches, which models
  `json.Unmarshal` succeeding or failing on the stored payload.
* A goroutine-free rendering: the two parallel lookups of
  `fetchBookAndCollection` touch disjoint state (the collection one touches
  only string-cache keys, the book one only set keys), so they are run in
  sequence; the error aggregation order (collection error first) is the
  source's.
* Nondeterminism is passed in explicitly: `now` (the clock),
  freshly generated ObjectIDs, the index drawn by `rand.IntN`, and injected
  infrastructure faults (`fault`, `insertFault`, `marshalOk`) for code paths
  that only trigger on a driver/serialization failure.
-/

namespace MsLib

/-! ## ObjectIDs and time -/

/-- A Mongo ObjectID, identified with its 24-char hex rendering. -/
abbrev OID := String

/-- `primitive.ObjectID{}` (the zero value), as hex. -/
def zeroOID : OID := "000000000000000000000000"

/-- One hex digit, upper or lower case. -/
def isHexChar (c : Char) : Bool :=
  c.isDigit || (97 ≤ c.toNat && c.toNat ≤ 102) || (65 ≤ c.toNat && c.toNat ≤ 70)

/-- `primitive.ObjectIDFromHex`: accepts exactly 24 hex digits. (Go re-renders
an accepted id in lower case; ids are kept verbatim here — every id in this
development is already lower case, and no claim involves the case of an id.) -/
def objectIDFromHex (s : String) : Option OID :=
  if s.length == 24 && s.toList.all isHexChar then some s else none

/-- Time in seconds (the zero `time.Time` is `0`). -/
abbrev Time := Nat

def secondsPerDay : Nat := 86400

/-! ## Data model (shared/pkg/model) -/

structure Collection where
  id : OID
  name : String
  author : String
  categories : List String
  totalBooks : Int
  availableBooks : Int
  createdAt : Time
  updatedAt : Time
deriving Repr, DecidableEq

structure Book where
  id : OID
  collectionId : OID
  isBorrowed : Bool
  createdAt : Time
  updatedAt : Time
deriving Repr, DecidableEq

structure Borrow where
  id : OID
  bookId : OID
  userId : OID
  collectionId : OID
  borrowDate : Time
  dueDate : Option Time
  returnDate : Option Time
  createdAt : Time
  updatedAt : Time
deriving Repr, DecidableEq

/-- The zero value `model.Borrow{}` that `BaseRepository.Find` returns a
pointer to even when the query errored. -/
def zeroBorrow : Borrow :=
  { id := zeroOID, bookId := zeroOID, userId := zeroOID, collectionId := zeroOID
    borrowDate := 0, dueDate := none, returnDate := none, createdAt := 0, updatedAt := 0 }

def zeroCollection : Collection :=
  { id := zeroOID, name := "", author := "", categories := [], totalBooks := 0
    availableBooks := 0, createdAt := 0, updatedAt := 0 }

/-- `borrowRecord.ReturnDate != nil && !borrowRecord.ReturnDate.IsZero()`. -/
def returnDateSet (r : Borrow) : Bool :=
  match r.returnDate with
  | some t => t != 0
  | none => false

/-! ## Redis cache -/

/-- A JSON payload stored in the string cache. Decoding into a Go type
succeeds iff the tag matches; `raw` stands for bytes that decode as nothing
(in particular `raw ""` is the nil byte slice `SET` stores). -/
inductive CacheVal where
  | jsonCollection (c : Collection)
  | jsonBook (b : Book)
  | jsonInt (n : Int)
  | raw (s : String)
deriving Repr, DecidableEq

structure Cache where
  kv : List (String × CacheVal)
  sets : List (String × List String)
deriving Repr, DecidableEq

def Cache.lookupKV (c : Cache) (k : String) : Option CacheVal :=
  (c.kv.find? (fun p => p.1 == k)).map (fun p => p.2)

/-- Redis `SET key val` (the TTL is not modelled; nothing in the claims reads it). -/
def Cache.setKV (c : Cache) (k : String) (v : CacheVal) : Cache :=
  { c with kv := (k, v) :: c.kv.filter (fun p => p.1 != k) }

/-- Redis `DEL key` (removes the key whatever its type). -/
def Cache.del (c : Cache) (k : String) : Cache :=
  { kv := c.kv.filter (fun p => p.1 != k), sets := c.sets.filter (fun p => p.1 != k) }

/-- Redis `SMEMBERS`: a missing set key reads as the empty list. -/
def Cache.setMembers (c : Cache) (k : String) : List String :=
  match c.sets.find? (fun p => p.1 == k) with
  | some p => p.2
  | none => []

/-- Redis `EXISTS` (> 0). -/
def Cache.keyExists (c : Cache) (k : String) : Bool :=
  c.kv.any (fun p => p.1 == k) || c.sets.any (fun p => p.1 == k)

def addMember (l : List String) (m : String) : List String :=
  if l.contains m then l else l ++ [m]

/-- Redis `SADD key m₁ m₂ …`. -/
def Cache.sAdd (c : Cache) (k : String) (ms : List String) : Cache :=
  { c with sets := (k, ms.foldl addMember (c.setMembers k)) :: c.sets.filter (fun p => p.1 != k) }

/-- Redis `SREM key m`; a set emptied by the removal ceases to exist. -/
def Cache.sRem (c : Cache) (k : String) (m : String) : Cache :=
  let rest := (c.setMembers k).filter (fun x => x != m)
  if rest.isEmpty then { c with sets := c.sets.filter (fun p => p.1 != k) }
  else { c with sets := (k, rest) :: c.sets.filter (fun p => p.1 != k) }

/-- go-redis `SAdd(ctx, key, members ...interface{})` has no TTL parameter: the
`time.Hour` the source passes as a third argument is serialized as one more
set member, its nanosecond count. -/
def durationHourMember : String := "3600000000000"

/-- `utils.GetCachedData[K]` (shared/pkg/utils/cache.go): `GET` then
`json.Unmarshal` into `K`. A missing key or a payload that fails to decode is
reported as a miss (`none`); the key is left untouched in both cases. -/
def getCachedData (dec : CacheVal → Option α) (c : Cache) (key : String) : Option α :=
  match c.lookupKV key with
  | none => none
  | some v => dec v

def decodeCollection : CacheVal → Option Collection
  | .jsonCollection c => some c
  | _ => none

def decodeBook : CacheVal → Option Book
  | .jsonBook b => some b
  | _ => none

def decodeInt64 : CacheVal → Option Int
  | .jsonInt n => some n
  | _ => none

/-! ## Stores and status codes -/

structure DB where
  collections : List Collection
  books : List Book
  borrows : List Borrow
deriving Repr, DecidableEq

structure World where
  db : DB
  cache : Cache
deriving Repr, DecidableEq

/-- Errors surfaced by the document store. `failure` covers every non-
`mongo.ErrNoDocuments` error: a hex-parse error of the id as well as an
injected driver outage. -/
inductive StoreErr where
  | noDocuments
  | failure
deriving Repr, DecidableEq

inductive GrpcCode where
  | notFound
  | alreadyExists
  | failedPrecondition
  | aborted
  | internal
deriving Repr, DecidableEq

structure GrpcErr where
  code : GrpcCode
  msg : String
deriving Repr, DecidableEq

/-! ## Base repository (shared/pkg/repository/base-repository.go), instantiated
per entity the way the Go generic is. -/

/-- `BaseRepository[Borrow].Find` with filter `{"_id": id}` (the shape
`BaseService.FindById` always passes). Mirrors the source: a hex-parse failure
returns the zero-value record together with the parse error; a driver failure
(`fault := true` injects one) likewise returns the zero record with a
non-`ErrNoDocuments` error; the pointer to the record is never nil. -/
def borrowRepoFindById (rows : List Borrow) (fault : Bool) (id : String) :
    Borrow × Option StoreErr :=
  match objectIDFromHex id with
  | none => (zeroBorrow, some .failure)
  | some oid =>
    if fault then (zeroBorrow, some .failure)
    else
      match rows.find? (fun r => r.id == oid) with
      | some r => (r, none)
      | none => (zeroBorrow, some .noDocuments)

/-- `BaseRepository[Borrow].UpdateOne` with the return-path payload
`{return_date: now, updated_at: now}` (the repository overwrites `updated_at`
with the current time as well). `FindOneAndUpdate` on a missing id yields
`ErrNoDocuments`. -/
def borrowRepoSetReturnDate (rows : List Borrow) (id : String) (now : Time) :
    List Borrow × Option StoreErr :=
  match objectIDFromHex id with
  | none => (rows, some .failure)
  | some oid =>
    if rows.any (fun r => r.id == oid) then
      (rows.map (fun r =>
        if r.id == oid then { r with returnDate := some now, updatedAt := now } else r), none)
    else (rows, some .noDocuments)

/-- `BaseRepository[Book].UpdateOne` with the payload the borrow coordinator
sends, `{is_borrowed: borrowed, updated_at: now}`. -/
def bookRepoSetBorrowed (rows : List Book) (id : String) (borrowed : Bool) (now : Time) :
    List Book × Option StoreErr :=
  match objectIDFromHex id with
  | none => (rows, some .failure)
  | some oid =>
    if rows.any (fun b => b.id == oid) then
      (rows.map (fun b =>
        if b.id == oid then { b with isBorrowed := borrowed, updatedAt := now } else b), none)
    else (rows, some .noDocuments)

/-- `BaseRepository[Collection].Find` with filter `{"_id": id}`. -/
def collectionRepoFindById (rows : List Collection) (id : String) :
    Collection × Option StoreErr :=
  match objectIDFromHex id with
  | none => (zeroCollection, some .failure)
  | some oid =>
    match rows.find? (fun c => c.id == oid) with
    | some c => (c, none)
    | none => (zeroCollection, some .noDocuments)

/-- `BaseRepository[Book].Find` with filter
`{collection_id: cid, is_borrowed: false}`: `FindOne` returns the first
matching document. -/
def bookRepoFindAvailable (rows : List Book) (cid : OID) : Option Book :=
  rows.find? (fun b => b.collectionId == cid && !b.isBorrowed)

/-- `CollectionRepository.UpdateBookStock`: `UpdateOne` applying
`{$inc: {total_books: amount}}` to the row with the given id. Returns the new
rows, the error, and `ModifiedCount`. -/
def updateBookStock (rows : List Collection) (id : String) (amount : Int) :
    List Collection × Option StoreErr × Nat :=
  match objectIDFromHex id with
  | none => (rows, some .failure, 0)
  | some oid =>
    if rows.any (fun c => c.id == oid) then
      (rows.map (fun c =>
        if c.id == oid then { c with totalBooks := c.totalBooks + amount } else c), none, 1)
    else (rows, none, 0)

/-! ## Book service (services/book/internal/service.go) -/

structure BookResponse where
  success : Bool
  message : String
  books : List Book
deriving Repr, DecidableEq

/-- `UpdateBook` restricted to the `{is_borrowed, updated_at}` payload the
borrow coordinator sends. On success the `book:<id>` cache key is invalidated;
`ErrNoDocuments` yields a `success=false` response with a NIL error; any other
store error becomes a gRPC `Internal` error. Returns
(new world, success flag, error). -/
def bookServiceSetBorrowed (w : World) (id : String) (borrowed : Bool) (now : Time) :
    World × Bool × Option GrpcErr :=
  match bookRepoSetBorrowed w.db.books id borrowed now with
  | (rows, none) =>
      ({ db := { w.db with books := rows }, cache := w.cache.del ("book:" ++ id) }, true, none)
  | (_, some .noDocuments) => (w, false, none)
  | (_, some .failure) => (w, false, some ⟨.internal, "update failed"⟩)

/-- `getCachedAvailableBook`: `SMEMBERS available_books:<cid>`, draw the member
at `rand.IntN(len)` (the draw is passed in as `pick`), and reconstruct a
synthetic `Book{Id, CollectionId, IsBorrowed:false}` (zero timestamps). Any
hex-parse failure is reported as a miss. -/
def getCachedAvailableBook (c : Cache) (collectionId : String) (pick : Nat) : Option Book :=
  let members := c.setMembers ("available_books:" ++ collectionId)
  if members.isEmpty then none
  else
    let chosen := members.getD (pick % members.length) ""
    match objectIDFromHex chosen, objectIDFromHex collectionId with
    | some bid, some cid =>
        some { id := bid, collectionId := cid, isBorrowed := false, createdAt := 0, updatedAt := 0 }
    | _, _ => none

/-- `GetAvailableBook`: cache first; on miss query the store for the first
`{collection_id, is_borrowed: false}` row; `ErrNoDocuments` becomes gRPC
`NotFound`; on a hit from the store, `SADD` the found id into the
available-set — together with `durationHourMember`, since the `time.Hour`
argument is one more member. -/
def getAvailableBook (w : World) (collectionId : String) (pick : Nat) :
    World × Except GrpcErr BookResponse :=
  match getCachedAvailableBook w.cache collectionId pick with
  | some b => (w, .ok ⟨true, "Books retrieved successfully", [b]⟩)
  | none =>
    match objectIDFromHex collectionId with
    | none => (w, .error ⟨.internal, "invalid collection id"⟩)
    | some cid =>
      match bookRepoFindAvailable w.db.books cid with
      | none => (w, .error ⟨.notFound, "mongo: no documents in result"⟩)
      | some b =>
          ({ w with cache :=
              w.cache.sAdd ("available_books:" ++ collectionId) [b.id, durationHourMember] },
           .ok ⟨true, "Books retrieved successfully", [b]⟩)

structure CountResponse where
  count : Int
  success : Bool
  message : String
deriving Repr, DecidableEq

/-- The cache/store operations `CountBook` performs, in order. -/
inductive CCall where
  | cacheGet (key : String)
  | storeCount (cid : OID)
  | cacheSet (key : String)
deriving Repr, DecidableEq

/-- `CountBook`: the cache lookup uses the BARE collection id as key, the
cache write uses `available_count:<id>`. The hex-parse error of the id is
discarded (`collectionObjId, _ := …`), leaving the zero ObjectID. The store
count is over `{collection_id: cid}`. -/
def countBook (w : World) (collectionId : String) :
    World × CountResponse × List CCall :=
  match getCachedData decodeInt64 w.cache collectionId with
  | some n =>
      (w, ⟨n, true, "Book counted successfully!"⟩, [.cacheGet collectionId])
  | none =>
    let cid := (objectIDFromHex collectionId).getD zeroOID
    let cnt : Int := (w.db.books.filter (fun b => b.collectionId == cid)).length
    ({ w with cache :=
        w.cache.setKV ("available_count:" ++ collectionId) (.jsonInt cnt) },
     ⟨cnt, true, "Book counted successfully!"⟩,
     [.cacheGet collectionId, .storeCount cid, .cacheSet ("available_count:" ++ collectionId)])

/-! ## Collection service (services/collections/internal/service.go) -/

structure CollResponse where
  success : Bool
  message : String
  collections : List Collection
deriving Repr, DecidableEq

/-- `getCachedCollection`: `GetCachedData[model.Collection]` under key
`collection:<id>`; a decode failure is only a miss, nothing is deleted. -/
def getCachedCollection (c : Cache) (id : String) : Option Collection :=
  getCachedData decodeCollection c ("collection:" ++ id)

/-- `FindCollectionById`: read-through on key `collection:<id>`. On a miss the
store is queried; `ErrNoDocuments` yields a `success=false` response with a
nil error (and nothing is cached); any other store error becomes gRPC
`Internal`; a store hit is cached under the same key and returned. -/
def findCollectionById (w : World) (id : String) :
    World × Except GrpcErr CollResponse :=
  match getCachedCollection w.cache id with
  | some c => (w, .ok ⟨true, "Collection found", [c]⟩)
  | none =>
    match collectionRepoFindById w.db.collections id with
    | (_, some .noDocuments) => (w, .ok ⟨false, "Collection not found", []⟩)
    | (_, some .failure) => (w, .error ⟨.internal, "find failed"⟩)
    | (c, none) =>
        ({ w with cache := w.cache.setKV ("collection:" ++ id) (.jsonCollection c) },
         .ok ⟨true, "Collection found", [c]⟩)

/-- `DecrementAvailableBooks` (the stock counter): `$inc total_books` through
`UpdateBookStock`; a store error or `ModifiedCount == 0` fails the call before
any cache work. Otherwise the cached Collection entry (if present and
decodable) gets `TotalBooks += amount` and is re-marshalled:
`marshalOk := false` injects the `json.Marshal` failure, on which the source
DELs the key — and then still runs the (unguarded) `SET` with the nil byte
slice, re-creating the key with an empty payload. -/
def decrementAvailableBooks (w : World) (id : String) (amount : Int) (marshalOk : Bool) :
    World × CollResponse × Option GrpcErr :=
  match updateBookStock w.db.collections id amount with
  | (_, some _, _) => (w, ⟨false, "update error", []⟩, some ⟨.internal, "update error"⟩)
  | (_, none, 0) => (w, ⟨false, "No book updated", []⟩, none)
  | (rows, none, _ + 1) =>
    let w1 : World := { db := { w.db with collections := rows }, cache := w.cache }
    let key := "collection:" ++ id
    match getCachedCollection w1.cache id with
    | none =>
        -- "Error getting cache" is only logged
        (w1, ⟨true, "Stock updated successfully!", []⟩, none)
    | some cached =>
      let updated := { cached with totalBooks := cached.totalBooks + amount }
      let cache' :=
        if marshalOk then w1.cache.setKV key (.jsonCollection updated)
        else (w1.cache.del key).setKV key (.raw "")
      ({ w1 with cache := cache' }, ⟨true, "Stock updated successfully!", []⟩, none)

/-! ## Borrow service (services/borrow/internal/service.go) -/

structure BorrowServiceResponse where
  id : String
  bookId : String
  success : Bool
  message : String
deriving Repr, DecidableEq

inductive CacheAction where
  | put
  | remove
deriving Repr, DecidableEq

/-- `updateCache`: on key `available_books:<collectionId>`, `put` SADDs the
book id (plus `durationHourMember`, the mis-passed `time.Hour`) whether or not
the key exists; `remove` SREMs only when the key exists. The `Exists` error
branch (cache outage) is not modelled — no claim exercises it. -/
def borrowUpdateCache (c : Cache) (bookId collectionId : String) (action : CacheAction) :
    Cache :=
  let cacheKey := "available_books:" ++ collectionId
  if c.keyExists cacheKey then
    match action with
    | .put => c.sAdd cacheKey [bookId, durationHourMember]
    | .remove => c.sRem cacheKey bookId
  else
    match action with
    | .put => c.sAdd cacheKey [bookId, durationHourMember]
    | .remove => c

/-- `markBookBorrowedStatus`: issue `BookClient.UpdateBook` with payload
`{is_borrowed, updated_at}`; any RPC error becomes `Internal`. Note a
`success=false` RPC response (book not found) carries a nil error and is
treated as success here. -/
def markBookBorrowedStatus (w : World) (bookId : String) (borrowed : Bool) (now : Time) :
    World × Option GrpcErr :=
  match bookServiceSetBorrowed w bookId borrowed now with
  | (w1, _, some _) => (w1, some ⟨.internal, "failed to mark book as borrowed"⟩)
  | (w1, _, none) => (w1, none)

/-- `getCollection` (borrow side): call `FindCollectionById`, map a NotFound
status through, any other RPC error to `Internal`; an empty collection list in
the response is `Internal "Invalid collection response"`. -/
def borrowGetCollection (w : World) (collectionId : String) :
    World × Except GrpcErr Collection :=
  match findCollectionById w collectionId with
  | (w1, .error e) =>
      if e.code == .notFound then (w1, .error ⟨.notFound, "Collection not found"⟩)
      else (w1, .error ⟨.internal, "Error retrieving collection info"⟩)
  | (w1, .ok resp) =>
      match resp.collections with
      | [] => (w1, .error ⟨.internal, "Invalid collection response"⟩)
      | c :: _ => (w1, .ok c)

/-- `getBook` (borrow side): `GetAvailableBook`, then reserve the returned
book by SREMing it from the available-set. -/
def borrowGetBook (w : World) (collectionId : String) (pick : Nat) :
    World × Except GrpcErr Book :=
  match getAvailableBook w collectionId pick with
  | (w1, .error e) => (w1, .error e)
  | (w1, .ok resp) =>
      match resp.books with
      | [] => (w1, .error ⟨.internal, "Unknown error"⟩)
      | b :: _ =>
          ({ w1 with cache := borrowUpdateCache w1.cache b.id collectionId .remove },
           .ok b)

/-- `fetchBookAndCollection`: the two parallel lookups (collection: string
cache + collection store; book: set cache + book store) touch disjoint state
and are sequenced here; the collection error is checked first, as in the
source. -/
def fetchBookAndCollection (w : World) (collectionId : String) (pick : Nat) :
    World × Except GrpcErr Book :=
  let cRes := borrowGetCollection w collectionId
  let bRes := borrowGetBook cRes.1 collectionId pick
  match cRes.2 with
  | .error e => (bRes.1, .error e)
  | .ok _ =>
    match bRes.2 with
    | .error e => (bRes.1, .error e)
    | .ok b => (bRes.1, .ok b)

/-- `createBorrowWithCompensation`. `now`/`due` are taken before anything
else; the book is marked borrowed only when it was not already; the inserted
record's `UserId` is `primitive.NewObjectID()` — the freshly generated
`freshUserId` — not an id from the request (the source carries a
`TODO: use real user ID`). `insertFault` injects the `Service.Create` failure,
on which the book is re-marked not borrowed and the id is SADDed back. -/
def createBorrowWithCompensation (w : World) (book : Book) (collectionId : String)
    (now : Time) (freshBorrowId freshUserId : OID) (insertFault : Bool) :
    World × Except GrpcErr Borrow :=
  let due := now + 7 * secondsPerDay
  match objectIDFromHex collectionId with
  | none => (w, .error ⟨.internal, "invalid collection id hex"⟩)
  | some cid =>
    let step :=
      if !book.isBorrowed then markBookBorrowedStatus w book.id true now
      else (w, none)
    match step with
    | (w1, some e) => (w1, .error e)
    | (w1, none) =>
      let newBorrow : Borrow :=
        { id := freshBorrowId, bookId := book.id, userId := freshUserId
          collectionId := cid, borrowDate := now, dueDate := some due
          returnDate := none, createdAt := now, updatedAt := now }
      if insertFault then
        let comp := markBookBorrowedStatus w1 book.id false now
        ({ comp.1 with cache := borrowUpdateCache comp.1.cache book.id collectionId .put },
         .error ⟨.internal, "failed to create borrow record"⟩)
      else
        ({ w1 with db := { w1.db with borrows := w1.db.borrows ++ [newBorrow] } },
         .ok newBorrow)

set_option linter.unusedVariables false in
/-- `BorrowBook`. The request's `userId` field (present on `pb.BorrowRequest`,
as the tests show) is bound here but never read by the service. -/
def borrowBook (w : World) (collectionId : String) (userId : String) (now : Time)
    (pick : Nat) (freshBorrowId freshUserId : OID) (insertFault : Bool) :
    World × Except GrpcErr BorrowServiceResponse :=
  match fetchBookAndCollection w collectionId pick with
  | (w1, .error e) => (w1, .error e)
  | (w1, .ok book) =>
    match createBorrowWithCompensation w1 book collectionId now
        freshBorrowId freshUserId insertFault with
    | (w2, .error e) => (w2, .error e)
    | (w2, .ok borrow) =>
        ({ w2 with cache := borrowUpdateCache w2.cache book.id collectionId .remove },
         .ok ⟨borrow.id, borrow.bookId, true, "Book borrowed!"⟩)

/-- Downstream writes the return path issues, in order. -/
inductive RCall where
  | updateBook (id : String) (borrowed : Bool)
  | updateBorrowReturnDate (id : String)
deriving Repr, DecidableEq

/-- `ReturnBook`. Only `ErrNoDocuments` from the lookup is surfaced
(`NotFound`); any other lookup error leaves the zero-value record in
`borrowRecord` and the workflow continues. A set-and-nonzero `returnDate`
fails with `FailedPrecondition` before any write. Then the book is marked not
borrowed, `returnDate`/`updatedAt` are written on the requested id (with
best-effort re-mark compensation on failure), and the book id is SADDed back
into the available-set. Returns (world, result, downstream writes issued). -/
def returnBook (w : World) (borrowId : String) (now : Time) (fault : Bool) :
    World × Except GrpcErr BorrowServiceResponse × List RCall :=
  match borrowRepoFindById w.db.borrows fault borrowId with
  | (_, some .noDocuments) =>
      (w, .error ⟨.notFound, "Borrow record not found"⟩, [])
  | (borrowRecord, _) =>
    if returnDateSet borrowRecord then
      (w, .error ⟨.failedPrecondition, "Book already returned"⟩, [])
    else
      match markBookBorrowedStatus w borrowRecord.bookId false now with
      | (w1, some _) =>
          (w1, .error ⟨.aborted, "failed to mark book as returned"⟩,
           [.updateBook borrowRecord.bookId false])
      | (w1, none) =>
        match borrowRepoSetReturnDate w1.db.borrows borrowId now with
        | (_, some _) =>
            let comp := markBookBorrowedStatus w1 borrowRecord.bookId true now
            (comp.1, .error ⟨.internal, "failed to update borrow record"⟩,
             [.updateBook borrowRecord.bookId false, .updateBorrowReturnDate borrowId,
              .updateBook borrowRecord.bookId true])
        | (rows, none) =>
            let w2 : World := { db := { w1.db with borrows := rows }, cache := w1.cache }
            ({ w2 with cache :=
                borrowUpdateCache w2.cache borrowRecord.bookId borrowRecord.collectionId .put },
             .ok ⟨borrowRecord.id, borrowRecord.bookId, true, "Book returned successfully"⟩,
             [.updateBook borrowRecord.bookId false, .updateBorrowReturnDate borrowId])

/-! ## API gateway (api-gateway/internal/handler) -/

structure SortEntry where
  key : String
  value : Int
deriving Repr, DecidableEq

/-- `handler.QueryParams`; `sort` is `*bson.D`, a nullable pointer. -/
structure QueryParams where
  filter : List (String × String)
  sort : Option (List SortEntry)
  skip : Int
  limit : Int
deriving Repr, DecidableEq

/-- The decoded URL query of a request: key ↦ values, as `url.Values`. -/
structure UrlQuery where
  pairs : List (String × List String)
deriving Repr, DecidableEq

/-- `gin.Context.Query(key)`: first value, or `""` when absent. -/
def UrlQuery.get (q : UrlQuery) (key : String) : String :=
  match q.pairs.find? (fun p => p.1 == key) with
  | some (_, v :: _) => v
  | _ => ""

/-! Go's string helpers, rendered over the character list (Lean's own
`String.startsWith`/`splitOn`/`trim` are not kernel-reducible). -/

/-- `strings.HasPrefix`. -/
def strStartsWith (s pre : String) : Bool := pre.toList.isPrefixOf s.toList

/-- `strings.HasSuffix`. -/
def strEndsWith (s suf : String) : Bool := suf.toList.isSuffixOf s.toList

/-- `unicode.IsSpace` on the whitespace Go query strings can carry. -/
def isSpaceChar (c : Char) : Bool := c == ' ' || c == '\t' || c == '\n' || c == '\r'

/-- `strings.TrimSpace` on a character list. -/
def trimSpaceL (cs : List Char) : List Char :=
  ((cs.dropWhile isSpaceChar).reverse.dropWhile isSpaceChar).reverse

/-- `strings.Split(s, sep)` for a one-character separator: always at least one
(possibly empty) field. -/
def splitOnChar (sep : Char) : List Char → List (List Char)
  | [] => [[]]
  | c :: cs =>
    match splitOnChar sep cs with
    | h :: t => if c == sep then [] :: h :: t else (c :: h) :: t
    | [] => [[c]]

/-- The all-digits body of `strconv.Atoi`. -/
def digitsToNat (cs : List Char) : Option Nat :=
  if cs.isEmpty then none
  else if cs.all Char.isDigit then
    some (cs.foldl (fun n c => n * 10 + (c.toNat - 48)) 0)
  else none

/-- `strconv.Atoi`: optional sign followed by decimal digits only. -/
def atoi (s : String) : Option Int :=
  match s.toList with
  | '-' :: rest => (digitsToNat rest).map (fun n => -(n : Int))
  | '+' :: rest => (digitsToNat rest).map (fun n => (n : Int))
  | cs => (digitsToNat cs).map (fun n => (n : Int))

/-- `ParseQueryParams` (api-gateway/internal/handler/utils.go). Defaults
`{skip := 0, limit := 10}`; `page` is applied against the default limit
(it is parsed before `limit`); `filter[field]=v` pairs populate the filter;
`sort=f1,-f2` populates `sort` only when at least one field results — a
request without a sort parameter leaves `sort` nil. -/
def parseQueryParams (q : UrlQuery) : QueryParams :=
  let p0 : QueryParams := { filter := [], sort := none, skip := 0, limit := 10 }
  let p1 :=
    if q.get "page" != "" then
      match atoi (q.get "page") with
      | some page => if page > 0 then { p0 with skip := (page - 1) * p0.limit } else p0
      | none => p0
    else p0
  let p2 :=
    if q.get "skip" != "" then
      match atoi (q.get "skip") with
      | some skip => if skip ≥ 0 then { p1 with skip := skip } else p1
      | none => p1
    else p1
  let p3 :=
    if q.get "limit" != "" then
      match atoi (q.get "limit") with
      | some limit => if limit > 0 && limit ≤ 100 then { p2 with limit := limit } else p2
      | none => p2
    else p2
  let filt := q.pairs.foldl (fun acc kv =>
    if strStartsWith kv.1 "filter[" && strEndsWith kv.1 "]" then
      match kv.2 with
      | v :: _ =>
          if v != "" then acc ++ [(String.mk ((kv.1.toList.drop 7).dropLast), v)] else acc
      | [] => acc
    else acc) []
  let p4 := { p3 with filter := filt }
  let sortStr := q.get "sort"
  if sortStr != "" then
    let sortDoc := (splitOnChar ',' sortStr.toList).foldl (fun acc f =>
      let f := trimSpaceL f
      if !f.isEmpty then
        match f with
        | '-' :: rest => acc ++ [SortEntry.mk (String.mk rest) (-1)]
        | _ => acc ++ [SortEntry.mk (String.mk f) 1]
      else acc) []
    if sortDoc.length > 0 then { p4 with sort := some sortDoc } else p4
  else p4

/-- `BuildFilterAndSort`. `structpb.NewStruct` cannot fail on the
string-valued filter map, and every sort direction the parser produces is an
`int`; but `for _, sort := range *params.Sort` dereferences the `Sort`
pointer unconditionally — `none` here models the nil-pointer panic when no
sort was parsed. -/
def buildFilterAndSort (p : QueryParams) :
    Option (List (String × String) × List SortEntry) :=
  match p.sort with
  | none => none
  | some doc => some (p.filter, doc)

/-- The downstream list request (`pb.GetCollectionRequest` /
`pb.GetBookRequest` essentials). -/
structure ListCall where
  filter : List (String × String)
  sort : List SortEntry
  skip : Int
  limit : Int
deriving Repr, DecidableEq

/-- A waiter queued in a batcher (`BatchRequest`): its query parameters. -/
structure GsRequest where
  params : QueryParams
deriving Repr, DecidableEq

/-- `ReqBatcher` state: the pending waiters and whether the one-shot timer is
armed. -/
structure BatcherState where
  pending : List GsRequest
  timerArmed : Bool
deriving Repr, DecidableEq

/-- `GetBatch` up to the blocking select: append the waiter under the lock,
arm the timer if it was not. -/
def batcherArrive (st : BatcherState) (req : GsRequest) : BatcherState :=
  { pending := st.pending ++ [req], timerArmed := true }

/-- What one `flush` produces: the downstream calls it issued and the
per-waiter outcome, in queue order. -/
structure FlushOutcome (E R : Type) where
  calls : List ListCall
  deliveries : List (Except E R)

/-- The body of `flush` after the queue was detached, parameterized by the
downstream call. The batch parameters are the FIRST pending waiter's
(zero-value `QueryParams` when the queue is empty); `BuildFilterAndSort` runs
before the downstream call, so when it panics (`none`) no call is issued and
no waiter is ever released. Otherwise exactly one downstream call is made and
its result — response or error alike — is sent to every waiter. -/
def batcherFlushBody (client : ListCall → Except E R) (pending : List GsRequest) :
    Option (FlushOutcome E R) :=
  let params :=
    match pending with
    | [] => ({ filter := [], sort := none, skip := 0, limit := 0 } : QueryParams)
    | r :: _ => r.params
  match buildFilterAndSort params with
  | none => none
  | some fs =>
    let req : ListCall := ⟨fs.1, fs.2, params.skip, params.limit⟩
    let resp := client req
    some ⟨[req], pending.map (fun _ => resp)⟩

/-- `flush`: under the lock detach `pending` and clear the timer, then run the
body on the detached queue. -/
def batcherFire (client : ListCall → Except E R) (st : BatcherState) :
    BatcherState × Option (FlushOutcome E R) :=
  (⟨[], false⟩, batcherFlushBody client st.pending)

/-! ## Rate limiter and defaults (api-gateway/internal/routes) -/

/-- `BatchingConfig`; windows in milliseconds, the rate-limit window in
seconds. -/
structure BatchingConfig where
  collectionBatchWindowMs : Nat
  bookBatchWindowMs : Nat
  rateLimit : Nat
  rateLimitWindowSec : Nat
deriving Repr, DecidableEq

/-- `DefaultBatchingConfig`: 20 ms batch windows, 100 requests per 1 minute. -/
def defaultBatchingConfig : BatchingConfig :=
  { collectionBatchWindowMs := 20, bookBatchWindowMs := 20
    rateLimit := 100, rateLimitWindowSec := 60 }

/-- The rate limiter's closure state: per-IP counts and the last wipe time. -/
structure RLState where
  counts : List (String × Nat)
  lastReset : Nat
deriving Repr, DecidableEq

/-- What the middleware does with one request. `rejected` carries the two JSON
body fields of the 429 response: `error` and `retry_after` (the window in
seconds, `window.Seconds()`). -/
inductive RLOutcome where
  | forwarded
  | rejected (bodyError : String) (retryAfter : Nat)
deriving Repr, DecidableEq

def rlLookup (counts : List (String × Nat)) (ip : String) : Nat :=
  match counts.find? (fun p => p.1 == ip) with
  | some p => p.2
  | none => 0

def rlIncr (counts : List (String × Nat)) (ip : String) : List (String × Nat) :=
  (ip, rlLookup counts ip + 1) :: counts.filter (fun p => p.1 != ip)

/-- One pass through `RateLimitingMiddleware`'s handler: wipe the table when
the window elapsed, then reject with
`429 {error: "Rate limit exceeded", retry_after: window}` (and abort, not
forwarding) when the IP's count reached the limit, else count and forward. -/
def rateLimitStep (maxRequests window : Nat) (st : RLState) (ip : String) (now : Nat) :
    RLState × RLOutcome :=
  let st := if now - st.lastReset > window then ⟨[], now⟩ else st
  if rlLookup st.counts ip ≥ maxRequests then
    (st, .rejected "Rate limit exceeded" window)
  else
    ({ st with counts := rlIncr st.counts ip }, .forwarded)

/-- Run the middleware over a sequence of `(clientIP, arrival time)` events,
pairing each event with its outcome. -/
def rateLimitRun (maxRequests window : Nat) (st : RLState) (evs : List (String × Nat)) :
    RLState × List ((String × Nat) × RLOutcome) :=
  match evs with
  | [] => (st, [])
  | e :: rest =>
    let step := rateLimitStep maxRequests window st e.1 e.2
    let tail := rateLimitRun maxRequests window step.1 rest
    (tail.1, (e, step.2) :: tail.2)

deriving instance DecidableEq for Except

/-! ## Small cache lemmas -/

theorem Cache.lookupKV_setKV_self (c : Cache) (k : String) (v : CacheVal) :
    (c.setKV k v).lookupKV k = some v := by
  simp [Cache.lookupKV, Cache.setKV]

theorem find?_filter_ne (l : List (String × CacheVal)) (k k' : String) (h : k' ≠ k) :
    (l.filter (fun p => p.1 != k)).find? (fun p => p.1 == k') =
      l.find? (fun p => p.1 == k') := by
  induction l with
  | nil => rfl
  | cons a t ih =>
    by_cases ha : a.1 = k
    · have h1 : (a.1 != k) = false := by simp [bne, ha]
      have h2 : (a.1 == k') = false := by
        simp only [beq_eq_false_iff_ne, ne_eq, ha]
        exact fun he => h he.symm
      simp [List.filter_cons, h1, List.find?, h2, ih]
    · have h1 : (a.1 != k) = true := by simp [bne, ha]
      by_cases ha' : a.1 = k'
      · simp [List.filter_cons, h1, List.find?, ha', h]
      · have h2 : (a.1 == k') = false := by simpa using ha'
        simp [List.filter_cons, h1, List.find?, h2, ih]

theorem Cache.lookupKV_setKV_ne (c : Cache) (k k' : String) (v : CacheVal)
    (h : k' ≠ k) :
    (c.setKV k v).lookupKV k' = c.lookupKV k' := by
  have hb : (k == k') = false := by
    simp only [beq_eq_false_iff_ne, ne_eq]
    exact fun he => h he.symm
  simp only [Cache.lookupKV, Cache.setKV, List.find?, hb]
  rw [find?_filter_ne c.kv k k' h]

/-- A string never equals itself with `"available_count:"` prepended. -/
theorem append_count_prefix_ne (id : String) : "available_count:" ++ id ≠ id := by
  intro h
  have hl : ("available_count:" ++ id).length = "available_count:".length + id.length :=
    String.length_append _ _
  rw [h] at hl
  have h16 : "available_count:".length = 16 := rfl
  omega

/-! ## Shared concrete fixtures -/

def cidA : String := "aaaaaaaaaaaaaaaaaaaaaaaa"
def bidB : String := "bbbbbbbbbbbbbbbbbbbbbbbb"
def uidC : String := "cccccccccccccccccccccccc"
def fBorrowId : String := "dddddddddddddddddddddddd"
def fUserId : String := "eeeeeeeeeeeeeeeeeeeeeeee"

def collA : Collection :=
  { id := cidA, name := "Harry Potter", author := "J. K. Rowling", categories := ["fantasy"]
    totalBooks := 3, availableBooks := 1, createdAt := 1, updatedAt := 1 }

def bookB : Book :=
  { id := bidB, collectionId := cidA, isBorrowed := false, createdAt := 1, updatedAt := 1 }

/-- Collection `C` present, book `B` available, `available_books:C = {B}` cached. -/
def worldCachedSet : World :=
  { db := { collections := [collA], books := [bookB], borrows := [] }
    cache := { kv := [], sets := [("available_books:" ++ cidA, [bidB])] } }

/-- Same store, but the available-set key is missing. -/
def worldNoSet : World :=
  { db := { collections := [collA], books := [bookB], borrows := [] }
    cache := { kv := [], sets := [] } }

/-! ## C1 — the inserted borrow record vs. the requested user id -/

/-- **C1.** The claim says the inserted Borrow's `userId` equals the request's
`userId`. Evaluating the embedded workflow at a successful borrow
(collection `C`, available book `B` cached, request user `uidC`): the call
succeeds, the inserted record's `bookId`, `collectionId`, `borrowDate` and
`dueDate = borrowDate + 7 days` are exactly as claimed, but its `userId` is
the freshly generated ObjectID (`fUserId`) — the source holds a
`TODO: use real user ID` — and differs from the requested `uidC`. -/
theorem claim_C1 :
    (borrowBook worldCachedSet cidA uidC 1000000 0 fBorrowId fUserId false).2 =
      .ok ⟨fBorrowId, bidB, true, "Book borrowed!"⟩ ∧
    (borrowBook worldCachedSet cidA uidC 1000000 0 fBorrowId fUserId false).1.db.borrows =
      [{ id := fBorrowId, bookId := bidB, userId := fUserId, collectionId := cidA
         borrowDate := 1000000, dueDate := some (1000000 + 7 * secondsPerDay)
         returnDate := none, createdAt := 1000000, updatedAt := 1000000 }] ∧
    fUserId ≠ uidC := by decide

/-! ## C4 — store fallback of the reservation -/

/-- **C4.** With `available_books:C` missing, the reservation falls back to
the store query for the first `{collectionId, isBorrowed=false}` row (which
finds `B`), and the borrow completes with the same response and the same
store post-state as the cached-set run. But the fallback `SADD` passes
`time.Hour` as an extra set member, so after the borrow the available-set key
holds the stray member `"3600000000000"` instead of being left absent as the
claim (and the cached run) has it. -/
theorem claim_C4 :
    (getAvailableBook worldNoSet cidA 0).2 =
      .ok ⟨true, "Books retrieved successfully", [bookB]⟩ ∧
    (borrowBook worldNoSet cidA uidC 1000000 0 fBorrowId fUserId false).2 =
      (borrowBook worldCachedSet cidA uidC 1000000 0 fBorrowId fUserId false).2 ∧
    (borrowBook worldNoSet cidA uidC 1000000 0 fBorrowId fUserId false).1.db =
      (borrowBook worldCachedSet cidA uidC 1000000 0 fBorrowId fUserId false).1.db ∧
    (borrowBook worldCachedSet cidA uidC 1000000 0 fBorrowId fUserId false).1.cache.setMembers
      ("available_books:" ++ cidA) = [] ∧
    (borrowBook worldNoSet cidA uidC 1000000 0 fBorrowId fUserId false).1.cache.setMembers
      ("available_books:" ++ cidA) = [durationHourMember] := by decide

/-! ## C5 — adjustStock cache update / serialization-failure path -/

/-- Store row `C` present, with its entry cached under `collection:C`. -/
def worldStock : World :=
  { db := { collections := [collA], books := [], borrows := [] }
    cache := { kv := [("collection:" ++ cidA, .jsonCollection collA)], sets := [] } }

/-- **C5 counterexample.** A successful `adjustStock(C, +1)` whose marshalling
of the updated cache entry fails: the call still succeeds, the key is DELed —
and then the unguarded `SET` re-creates it with the nil payload. The key is
present afterwards, not "invalidated … and left absent" as claimed. -/
theorem claim_C5_cex :
    (decrementAvailableBooks worldStock cidA 1 false).2.1.success = true ∧
    (decrementAvailableBooks worldStock cidA 1 false).1.cache.lookupKV
      ("collection:" ++ cidA) = some (.raw "") := by decide

/-- **C5 (amended).** For a successful `adjustStock` whose cached entry is
present and decodable: when marshalling succeeds the entry is re-persisted
under the same key with `totalBooks` increased by the delta (as claimed);
when marshalling fails the key is deleted but immediately re-created by the
unguarded `SET` with an empty payload, so it ends present, not absent. -/
theorem claim_C5 (w : World) (id : String) (amount : Int) (c : Collection)
    (hrow : (updateBookStock w.db.collections id amount).2 = (none, 1))
    (hcache : getCachedCollection w.cache id = some c) :
    (decrementAvailableBooks w id amount true).1.cache.lookupKV ("collection:" ++ id) =
      some (.jsonCollection { c with totalBooks := c.totalBooks + amount }) ∧
    (decrementAvailableBooks w id amount true).2.1.success = true ∧
    (decrementAvailableBooks w id amount false).1.cache.lookupKV ("collection:" ++ id) =
      some (.raw "") ∧
    (decrementAvailableBooks w id amount false).2.1.success = true := by
  rcases hu : updateBookStock w.db.collections id amount with ⟨rows, e, n⟩
  rw [hu] at hrow
  injection hrow with he hn
  subst he hn
  refine ⟨?_, ?_, ?_, ?_⟩ <;>
    simp [decrementAvailableBooks, hu, hcache, Cache.lookupKV_setKV_self]

/-- A closed instance of the amended C5. -/
theorem claim_C5_witness :
    (decrementAvailableBooks worldStock cidA 1 true).1.cache.lookupKV
      ("collection:" ++ cidA) =
      some (.jsonCollection { collA with totalBooks := collA.totalBooks + 1 }) ∧
    (decrementAvailableBooks worldStock cidA 1 true).2.1.success = true ∧
    (decrementAvailableBooks worldStock cidA 1 false).1.cache.lookupKV
      ("collection:" ++ cidA) = some (.raw "") ∧
    (decrementAvailableBooks worldStock cidA 1 false).2.1.success = true :=
  claim_C5 worldStock cidA 1 collA (by decide) (by decide)

/-! ## C6 — undecodable cached payload -/

/-- An undecodable payload cached under `collection:C`; the store has no row. -/
def worldGarbage : World :=
  { db := { collections := [], books := [], borrows := [] }
    cache := { kv := [("collection:" ++ cidA, .raw "garbage")], sets := [] } }

/-- **C6 counterexample.** A read whose cached payload fails to decode falls
through to the store (which reports not-found) — but the undecodable key is
NOT deleted: it still holds the garbage payload after the call. -/
theorem claim_C6_cex :
    (findCollectionById worldGarbage cidA).2 =
      .ok ⟨false, "Collection not found", []⟩ ∧
    (findCollectionById worldGarbage cidA).1.cache.lookupKV ("collection:" ++ cidA) =
      some (.raw "garbage") := by decide

/-- **C6 (amended).** A cached payload that fails to decode is treated as a
miss — the response is exactly the authoritative store's outcome — but the
undecodable key is not deleted: the key is still present afterwards (either
untouched, or overwritten by the fresh entity when the store read succeeds). -/
theorem claim_C6 (w : World) (id : String) (v : CacheVal)
    (hv : w.cache.lookupKV ("collection:" ++ id) = some v)
    (hdec : decodeCollection v = none) :
    (findCollectionById w id).2 =
      (match collectionRepoFindById w.db.collections id with
       | (_, some .noDocuments) => .ok ⟨false, "Collection not found", []⟩
       | (_, some .failure) => .error ⟨.internal, "find failed"⟩
       | (c, none) => .ok ⟨true, "Collection found", [c]⟩) ∧
    ((findCollectionById w id).1.cache.lookupKV ("collection:" ++ id)).isSome = true := by
  have hmiss : getCachedCollection w.cache id = none := by
    simp [getCachedCollection, getCachedData, hv, hdec]
  rcases hs : collectionRepoFindById w.db.collections id with ⟨c, e⟩
  match e with
  | some .noDocuments => simp [findCollectionById, hmiss, hs, hv]
  | some .failure => simp [findCollectionById, hmiss, hs, hv]
  | none => simp [findCollectionById, hmiss, hs, Cache.lookupKV_setKV_self]

/-- A closed instance of the amended C6. -/
theorem claim_C6_witness :
    (findCollectionById worldGarbage cidA).2 =
      (match collectionRepoFindById worldGarbage.db.collections cidA with
       | (_, some .noDocuments) => .ok ⟨false, "Collection not found", []⟩
       | (_, some .failure) => .error ⟨.internal, "find failed"⟩
       | (c, none) => .ok ⟨true, "Collection found", [c]⟩) ∧
    ((findCollectionById worldGarbage cidA).1.cache.lookupKV
      ("collection:" ++ cidA)).isSome = true :=
  claim_C6 worldGarbage cidA (.raw "garbage") (by decide) (by decide)

/-! ## C10 — CountBook key mismatch -/

/-- On a bare-key cache miss, `CountBook` consults the store and writes the
prefixed key: its operation trace in that case. -/
theorem countBook_trace_of_miss (w : World) (id : String)
    (hmiss : getCachedData decodeInt64 w.cache id = none) :
    (countBook w id).2.2 =
      [.cacheGet id, .storeCount ((objectIDFromHex id).getD zeroOID),
       .cacheSet ("available_count:" ++ id)] := by
  simp [countBook, hmiss]

/-- **C10.** `CountBook` looks the cache up under the BARE collection id but
stores the computed count under `available_count:<id>`: starting from any
state where the bare key misses, the first call consults the store and caches
under the prefixed key, the bare key still misses afterwards, and a second
call consults the store again — the cached value is never read back. -/
theorem claim_C10 (w : World) (id : String)
    (hmiss : getCachedData decodeInt64 w.cache id = none) :
    (countBook w id).2.2 =
      [.cacheGet id, .storeCount ((objectIDFromHex id).getD zeroOID),
       .cacheSet ("available_count:" ++ id)] ∧
    (countBook w id).1.cache.lookupKV ("available_count:" ++ id) =
      some (.jsonInt ((w.db.books.filter
        (fun b => b.collectionId == (objectIDFromHex id).getD zeroOID)).length : Int)) ∧
    getCachedData decodeInt64 (countBook w id).1.cache id = none ∧
    (countBook (countBook w id).1 id).2.2 =
      [.cacheGet id, .storeCount ((objectIDFromHex id).getD zeroOID),
       .cacheSet ("available_count:" ++ id)] := by
  have hmiss' : getCachedData decodeInt64 (countBook w id).1.cache id = none := by
    simp only [countBook, hmiss]
    simp only [getCachedData] at hmiss ⊢
    rw [Cache.lookupKV_setKV_ne _ _ _ _ (fun h => append_count_prefix_ne id h.symm)]
    exact hmiss
  refine ⟨countBook_trace_of_miss w id hmiss, ?_, hmiss',
    countBook_trace_of_miss (countBook w id).1 id hmiss'⟩
  simp [countBook, hmiss, Cache.lookupKV_setKV_self]

/-- A closed instance of C10: both consecutive calls hit the store. -/
theorem claim_C10_witness :
    (countBook worldNoSet cidA).2.2 =
      [.cacheGet cidA, .storeCount ((objectIDFromHex cidA).getD zeroOID),
       .cacheSet ("available_count:" ++ cidA)] ∧
    (countBook worldNoSet cidA).1.cache.lookupKV ("available_count:" ++ cidA) =
      some (.jsonInt ((worldNoSet.db.books.filter
        (fun b => b.collectionId == (objectIDFromHex cidA).getD zeroOID)).length : Int)) ∧
    getCachedData decodeInt64 (countBook worldNoSet cidA).1.cache cidA = none ∧
    (countBook (countBook worldNoSet cidA).1 cidA).2.2 =
      [.cacheGet cidA, .storeCount ((objectIDFromHex cidA).getD zeroOID),
       .cacheSet ("available_count:" ++ cidA)] :=
  claim_C10 worldNoSet cidA (by decide)

/-! ## C3 — batcher flush / C8 — nil Sort panic -/

theorem map_const_eq_replicate {α β : Type} (l : List α) (b : β) :
    l.map (fun _ => b) = List.replicate l.length b := by
  induction l with
  | nil => rfl
  | cons a t ih => simp [List.replicate, ih]

/-- The query parameters of a plain `GET /api/v1/collections` (no query
string): `ParseQueryParams` leaves the `Sort` pointer nil. -/
def noSortParams : QueryParams := parseQueryParams ⟨[]⟩

/-- The claim's batch: 50 identical no-query list requests. -/
def noSortBatch : List GsRequest := List.replicate 50 ⟨noSortParams⟩

/-- The parameters of `GET /api/v1/collections?sort=name`. -/
def sortedParams : QueryParams := parseQueryParams ⟨[("sort", ["name"])]⟩

/-- A concrete downstream call that always answers `0`. -/
def constClient : ListCall → Except Unit Nat := fun _ => .ok 0

/-- **C3 counterexample.** The claim's own scenario — a timer fire over 50
identical plain `GET /api/v1/collections` waiters — produces NO downstream
call and NO delivered payloads: the flush body panics inside
`BuildFilterAndSort` on the nil `Sort` pointer of the first request. -/
theorem claim_C3_cex :
    noSortBatch.length = 50 ∧
    (batcherFire constClient ⟨noSortBatch, true⟩).2 = none := by
  exact ⟨rfl, rfl⟩

/-- **C3 (amended).** When the timer fires, the batcher detaches the pending
queue and clears the timer; provided the first pending request carries a sort
parameter (so `BuildFilterAndSort` does not panic — see C8), it issues exactly
one downstream call whose parameters are those of the first pending request
and delivers that call's identical response (or identical error) to every
waiter of the batch. -/
theorem claim_C3 {E R : Type} (client : ListCall → Except E R)
    (st : BatcherState) (r0 : GsRequest) (d : List SortEntry)
    (hhead : st.pending.head? = some r0)
    (hsort : r0.params.sort = some d) :
    batcherFire client st =
      (⟨[], false⟩,
       some ⟨[⟨r0.params.filter, d, r0.params.skip, r0.params.limit⟩],
             List.replicate st.pending.length
               (client ⟨r0.params.filter, d, r0.params.skip, r0.params.limit⟩)⟩) := by
  cases hp : st.pending with
  | nil => rw [hp] at hhead; simp at hhead
  | cons a t =>
    rw [hp] at hhead
    simp only [List.head?] at hhead
    injection hhead with ha
    subst ha
    simp [batcherFire, batcherFlushBody, hp, buildFilterAndSort, hsort,
      map_const_eq_replicate, List.replicate_succ]

/-- A closed instance of the amended C3: a two-waiter batch with
`sort=name` makes one downstream call and both waiters get the same payload. -/
theorem claim_C3_witness :
    batcherFire constClient ⟨[⟨sortedParams⟩, ⟨sortedParams⟩], true⟩ =
      (⟨[], false⟩,
       some ⟨[⟨sortedParams.filter, [⟨"name", 1⟩], sortedParams.skip, sortedParams.limit⟩],
             List.replicate 2 (constClient
               ⟨sortedParams.filter, [⟨"name", 1⟩], sortedParams.skip, sortedParams.limit⟩)⟩) :=
  claim_C3 constClient ⟨[⟨sortedParams⟩, ⟨sortedParams⟩], true⟩ ⟨sortedParams⟩
    [⟨"name", 1⟩] rfl (by decide)

/-- **C8.** (1) `BuildFilterAndSort` on a `QueryParams` whose `Sort` pointer
is nil dereferences it and panics instead of returning. (2) `ParseQueryParams`
produces a nil `Sort` whenever the request carries no `sort` query parameter.
(3) Every batcher flush whose first pending request has no sort parameter
reaches that panic: no downstream call is made, no waiter is released. (The
unbatched `GetCollection`/`GetBook` handlers run
`BuildFilterAndSort (ParseQueryParams c)` directly, which is (1)∘(2).) -/
theorem claim_C8 :
    (∀ p : QueryParams, p.sort = none → buildFilterAndSort p = none) ∧
    (∀ q : UrlQuery, q.pairs.find? (fun kv => kv.1 == "sort") = none →
      (parseQueryParams q).sort = none) ∧
    (∀ (E R : Type) (client : ListCall → Except E R) (st : BatcherState) (r0 : GsRequest),
      st.pending.head? = some r0 → r0.params.sort = none →
      (batcherFire client st).2 = none) := by
  refine ⟨fun p h => by simp [buildFilterAndSort, h], fun q h => ?_, ?_⟩
  · have hget : q.get "sort" = "" := by simp [UrlQuery.get, h]
    simp only [parseQueryParams, hget]
    rw [show (("" : String) != "") = false from rfl]
    rw [if_neg (by decide : ¬(false = true))]
    repeat' first | rfl | split
  · intro E R client st r0 hhead hsort
    cases hp : st.pending with
    | nil => rw [hp] at hhead; simp at hhead
    | cons a t =>
      rw [hp] at hhead
      simp only [List.head?] at hhead
      injection hhead with ha
      subst ha
      simp [batcherFire, batcherFlushBody, hp, buildFilterAndSort, hsort]

/-- A closed instance of C8: the parser of a request with no sort parameter
yields a nil `Sort`, on which `BuildFilterAndSort` panics; a flush whose first
waiter is such a request makes no downstream call. -/
theorem claim_C8_witness :
    (parseQueryParams ⟨[("page", ["2"])]⟩).sort = none ∧
    buildFilterAndSort (parseQueryParams ⟨[("page", ["2"])]⟩) = none ∧
    (batcherFire constClient ⟨[⟨parseQueryParams ⟨[("page", ["2"])]⟩⟩], true⟩).2 = none := by
  have h1 := claim_C8.2.1 ⟨[("page", ["2"])]⟩ (by decide)
  exact ⟨h1, claim_C8.1 _ h1,
    claim_C8.2.2 Unit Nat constClient _ ⟨parseQueryParams ⟨[("page", ["2"])]⟩⟩ rfl h1⟩

/-! ## C2 / C9 — the return path -/

theorem objectIDFromHex_eq_of_isSome (s : String) (h : (objectIDFromHex s).isSome = true) :
    objectIDFromHex s = some s := by
  unfold objectIDFromHex at h ⊢
  by_cases hc : (s.length == 24 && s.toList.all isHexChar) = true
  · rw [if_pos hc]
  · rw [if_neg hc] at h; simp at h

/-- Decomposing a successful borrow lookup. -/
theorem borrowRepoFindById_some_elim (rows : List Borrow) (id : String) (r : Borrow)
    (hfind : borrowRepoFindById rows false id = (r, none)) :
    objectIDFromHex id = some id ∧ rows.find? (fun x => x.id == id) = some r := by
  unfold borrowRepoFindById at hfind
  split at hfind
  · simp at hfind
  · rename_i oid hh
    rw [if_neg (by decide : ¬(false = true))] at hfind
    have hoid : oid = id := by
      have h3 := hh
      unfold objectIDFromHex at h3
      by_cases hc : (id.length == 24 && id.toList.all isHexChar) = true
      · rw [if_pos hc] at h3; injection h3 with h4; exact h4.symm
      · rw [if_neg hc] at h3; cases h3
    subst hoid
    rcases hfl : rows.find? (fun x => x.id == oid) with _ | rr
    · rw [hfl] at hfind; simp at hfind
    · rw [hfl] at hfind
      injection hfind with h1 h2
      refine ⟨hh, ?_⟩
      first
        | exact congrArg some h1
        | (rw [hfl]; exact congrArg some h1)

/-- The book-side update the return path issues never errors when the book id
is a well-formed hex id, and it never touches the borrow rows. -/
theorem markBookBorrowedStatus_ok (w : World) (bid : String) (b : Bool) (now : Time)
    (h : (objectIDFromHex bid).isSome = true) :
    (markBookBorrowedStatus w bid b now).2 = none ∧
    (markBookBorrowedStatus w bid b now).1.db.borrows = w.db.borrows := by
  have hhex : objectIDFromHex bid = some bid := objectIDFromHex_eq_of_isSome bid h
  by_cases ha : (w.db.books.any (fun x => x.id == bid)) = true
  · simp [markBookBorrowedStatus, bookServiceSetBorrowed, bookRepoSetBorrowed, hhex, ha]
  · simp [markBookBorrowedStatus, bookServiceSetBorrowed, bookRepoSetBorrowed, hhex, ha]

/-- A `FailedPrecondition` return: a lookup that yields a closed record fails
before any write (same world, no downstream calls). -/
theorem returnBook_guard (w : World) (id : String) (now : Time) (r : Borrow)
    (hfind : borrowRepoFindById w.db.borrows false id = (r, none))
    (hclosed : returnDateSet r = true) :
    returnBook w id now false =
      (w, .error ⟨.failedPrecondition, "Book already returned"⟩, []) := by
  unfold returnBook
  rw [hfind]
  simp [hclosed]

theorem find?_map_setReturned (rows : List Borrow) (id : String) (now : Time) :
    List.find? (fun x => x.id == id)
      (rows.map (fun x =>
        if x.id == id then { x with returnDate := some now, updatedAt := now } else x)) =
    (List.find? (fun x => x.id == id) rows).map
      (fun x =>
        if x.id == id then { x with returnDate := some now, updatedAt := now } else x) := by
  induction rows with
  | nil => rfl
  | cons a t ih =>
    by_cases ha : (a.id == id) = true
    · have ha' : a.id = id := by simpa using ha
      simp [List.map_cons, List.find?, ha']
    · have hfa : (if (a.id == id) = true
          then ({ a with returnDate := some now, updatedAt := now } : Borrow) else a) = a :=
        if_neg ha
      have hstep : ∀ l : List Borrow,
          List.find? (fun x => x.id == id) (a :: l) = List.find? (fun x => x.id == id) l :=
        fun l => List.find?_cons_of_neg l ha
      rw [List.map_cons, hfa, hstep, hstep]
      exact ih

/-- A successful first return: the response names the record, and the borrow
rows get `returnDate`/`updatedAt` written on the requested id. -/
theorem returnBook_first_ok (w : World) (id : String) (r : Borrow) (now : Time)
    (hfind : borrowRepoFindById w.db.borrows false id = (r, none))
    (hopen : r.returnDate = none)
    (hhex : (objectIDFromHex r.bookId).isSome = true) :
    (returnBook w id now false).2.1 =
      .ok ⟨r.id, r.bookId, true, "Book returned successfully"⟩ ∧
    (returnBook w id now false).1.db.borrows =
      w.db.borrows.map (fun x =>
        if x.id == id then { x with returnDate := some now, updatedAt := now } else x) := by
  obtain ⟨hhexid, hfindlist⟩ := borrowRepoFindById_some_elim w.db.borrows id r hfind
  have hnotclosed : returnDateSet r = false := by simp [returnDateSet, hopen]
  rcases hm : markBookBorrowedStatus w r.bookId false now with ⟨w1, me⟩
  have hmark := markBookBorrowedStatus_ok w r.bookId false now hhex
  rw [hm] at hmark
  obtain ⟨hme, hw1p⟩ := hmark
  have hw1 : w1.db.borrows = w.db.borrows := hw1p
  subst hme
  have hpred : (r.id == id) = true := by
    have h5 := List.find?_some hfindlist
    simpa using h5
  have hany : (w1.db.borrows.any (fun x => x.id == id)) = true := by
    rw [hw1]
    exact List.any_eq_true.mpr ⟨r, List.mem_of_find?_eq_some hfindlist, hpred⟩
  have hupd : borrowRepoSetReturnDate w1.db.borrows id now =
      (w.db.borrows.map (fun x =>
        if x.id == id then { x with returnDate := some now, updatedAt := now } else x), none) := by
    simp only [borrowRepoSetReturnDate, hhexid]
    rw [if_pos hany, hw1]
  unfold returnBook
  rw [hfind]
  simp only [hnotclosed, hm, hupd, Bool.false_eq_true, if_false]
  constructor <;> trivial

/-- **C2.** (1) A `return` on a borrow record whose `returnDate` is already
set fails with `FailedPrecondition` and performs no writes at all: the world
is unchanged and no downstream call is issued. (2) In particular, after a
successful `return`, a second `return` of the same `borrowId` fails with
`FailedPrecondition` and leaves the first call's post-state untouched. -/
theorem claim_C2 :
    (∀ (w : World) (id : String) (now : Time) (r : Borrow),
      borrowRepoFindById w.db.borrows false id = (r, none) →
      returnDateSet r = true →
      returnBook w id now false =
        (w, .error ⟨.failedPrecondition, "Book already returned"⟩, [])) ∧
    (∀ (w : World) (id : String) (r : Borrow) (now now2 : Time),
      borrowRepoFindById w.db.borrows false id = (r, none) →
      r.returnDate = none →
      (objectIDFromHex r.bookId).isSome = true →
      now ≠ 0 →
      (returnBook w id now false).2.1 =
        .ok ⟨r.id, r.bookId, true, "Book returned successfully"⟩ ∧
      returnBook (returnBook w id now false).1 id now2 false =
        ((returnBook w id now false).1,
         .error ⟨.failedPrecondition, "Book already returned"⟩, [])) := by
  refine ⟨fun w id now r hf hc => returnBook_guard w id now r hf hc, ?_⟩
  intro w id r now now2 hfind hopen hhex hnow
  obtain ⟨hres, hborrows⟩ := returnBook_first_ok w id r now hfind hopen hhex
  obtain ⟨hhexid, hfindlist⟩ := borrowRepoFindById_some_elim w.db.borrows id r hfind
  have hpred : (r.id == id) = true := by
    have h5 := List.find?_some hfindlist
    simpa using h5
  refine ⟨hres, ?_⟩
  have hfind2 : borrowRepoFindById (returnBook w id now false).1.db.borrows false id =
      ({ r with returnDate := some now, updatedAt := now }, none) := by
    simp only [borrowRepoFindById, hhexid]
    rw [if_neg (by decide : ¬(false = true))]
    rw [hborrows, find?_map_setReturned, hfindlist]
    have hmap : Option.map (fun x =>
        if (x.id == id) = true then
          ({ x with returnDate := some now, updatedAt := now } : Borrow) else x) (some r) =
        some (if (r.id == id) = true then
          ({ r with returnDate := some now, updatedAt := now } : Borrow) else r) := rfl
    rw [hmap, if_pos hpred]
  exact returnBook_guard _ id now2 _ hfind2 (by simp [returnDateSet, hnow])

/-- An open borrow of book `B` and the matching world. -/
def openBorrow : Borrow :=
  { id := fBorrowId, bookId := bidB, userId := fUserId, collectionId := cidA
    borrowDate := 5, dueDate := some 10, returnDate := none, createdAt := 5, updatedAt := 5 }

def worldOpen : World :=
  { db := { collections := [collA], books := [{ bookB with isBorrowed := true }]
            borrows := [openBorrow] }
    cache := { kv := [], sets := [] } }

/-- The same borrow, already closed, and its world. -/
def closedBorrow : Borrow := { openBorrow with returnDate := some 20, updatedAt := 20 }

def worldClosed : World :=
  { db := { collections := [collA], books := [{ bookB with isBorrowed := true }]
            borrows := [closedBorrow] }
    cache := { kv := [], sets := [] } }

/-- A closed instance of C2: a return of a closed borrow is rejected with no
writes, and a double return rejects the second call leaving the first call's
post-state unchanged. -/
theorem claim_C2_witness :
    returnBook worldClosed fBorrowId 77 false =
      (worldClosed, .error ⟨.failedPrecondition, "Book already returned"⟩, []) ∧
    (returnBook worldOpen fBorrowId 77 false).2.1 =
      .ok ⟨openBorrow.id, openBorrow.bookId, true, "Book returned successfully"⟩ ∧
    returnBook (returnBook worldOpen fBorrowId 77 false).1 fBorrowId 99 false =
      ((returnBook worldOpen fBorrowId 77 false).1,
       .error ⟨.failedPrecondition, "Book already returned"⟩, []) :=
  ⟨claim_C2.1 worldClosed fBorrowId 77 closedBorrow (by decide) (by decide),
   (claim_C2.2 worldOpen fBorrowId openBorrow 77 99 (by decide) (by decide)
     (by decide) (by decide)).1,
   (claim_C2.2 worldOpen fBorrowId openBorrow 77 99 (by decide) (by decide)
     (by decide) (by decide)).2⟩

/-- **C9.** When the borrow lookup fails with anything other than
`ErrNoDocuments` (an invalid id, or an injected store outage), `ReturnBook`
does not surface the error: the repository hands back the non-nil zero-value
record, whose unset `returnDate` passes the guard, and the workflow proceeds —
its first two downstream writes are the book update addressed to the all-zero
object id and the `returnDate` write addressed to the requested borrow id; the
result is neither the `NotFound` nor the `FailedPrecondition` rejection. -/
theorem claim_C9 (w : World) (id : String) (now : Time) (fault : Bool)
    (h : (borrowRepoFindById w.db.borrows fault id).2 = some .failure) :
    (borrowRepoFindById w.db.borrows fault id).1 = zeroBorrow ∧
    returnDateSet zeroBorrow = false ∧
    (returnBook w id now fault).2.2.take 2 =
      [.updateBook zeroOID false, .updateBorrowReturnDate id] ∧
    (returnBook w id now fault).2.1 ≠ .error ⟨.notFound, "Borrow record not found"⟩ ∧
    (returnBook w id now fault).2.1 ≠ .error ⟨.failedPrecondition, "Book already returned"⟩ := by
  have hzero : (borrowRepoFindById w.db.borrows fault id).1 = zeroBorrow := by
    unfold borrowRepoFindById at h ⊢
    cases hh : objectIDFromHex id with
    | none => simp
    | some oid =>
      by_cases hf : fault = true
      · simp [hf]
      · cases hfl : w.db.borrows.find? (fun x => x.id == oid) with
        | none => simp [hf, hfl]
        | some rr => rw [hh] at h; simp [hf, hfl] at h
  have hpair : borrowRepoFindById w.db.borrows fault id = (zeroBorrow, some .failure) := by
    have hp := Prod.mk.eta (p := borrowRepoFindById w.db.borrows fault id)
    rw [← hp, hzero, h]
  rcases hm : markBookBorrowedStatus w zeroOID false now with ⟨w1, me⟩
  have hmark := markBookBorrowedStatus_ok w zeroOID false now (by decide)
  rw [hm] at hmark
  obtain ⟨hme, _⟩ := hmark
  subst hme
  refine ⟨hzero, rfl, ?_, ?_, ?_⟩ <;>
  · unfold returnBook
    rw [hpair]
    rcases hs : borrowRepoSetReturnDate w1.db.borrows id now with ⟨rows2, e2⟩
    cases e2 <;> simp [hm, hs, returnDateSet, zeroBorrow]

/-- A closed instance of C9 at an invalid borrow id (`"zz"`). -/
theorem claim_C9_witness :
    (borrowRepoFindById worldOpen.db.borrows false "zz").1 = zeroBorrow ∧
    returnDateSet zeroBorrow = false ∧
    (returnBook worldOpen "zz" 77 false).2.2.take 2 =
      [.updateBook zeroOID false, .updateBorrowReturnDate "zz"] ∧
    (returnBook worldOpen "zz" 77 false).2.1 ≠
      .error ⟨.notFound, "Borrow record not found"⟩ ∧
    (returnBook worldOpen "zz" 77 false).2.1 ≠
      .error ⟨.failedPrecondition, "Book already returned"⟩ :=
  claim_C9 worldOpen "zz" 77 false (by decide)

/-! ## C7 — the per-IP fixed-window rate limiter -/

/-- The event was forwarded and came from this IP. -/
def isForwardedFrom (ip : String) (p : (String × Nat) × RLOutcome) : Bool :=
  p.1.1 == ip && (match p.2 with | .forwarded => true | _ => false)

theorem rlLookup_rlIncr_self (counts : List (String × Nat)) (ip : String) :
    rlLookup (rlIncr counts ip) ip = rlLookup counts ip + 1 := by
  simp [rlLookup, rlIncr, List.find?]

theorem rlLookup_rlIncr_ne (counts : List (String × Nat)) (ip ip' : String)
    (h : ip' ≠ ip) :
    rlLookup (rlIncr counts ip) ip' = rlLookup counts ip' := by
  have hb : (ip == ip') = false := by
    simp only [beq_eq_false_iff_ne, ne_eq]
    exact fun he => h he.symm
  simp only [rlLookup, rlIncr, List.find?, hb]
  congr 1
  induction counts with
  | nil => rfl
  | cons a t ih =>
    by_cases ha : a.1 = ip
    · have h1 : (a.1 != ip) = false := by simp [bne, ha]
      have h2 : (a.1 == ip') = false := by
        simp only [beq_eq_false_iff_ne, ne_eq, ha]
        exact fun he => h he.symm
      simp [List.filter_cons, h1, List.find?, h2, ih]
    · have h1 : (a.1 != ip) = true := by simp [bne, ha]
      by_cases ha' : a.1 = ip'
      · simp [List.filter_cons, h1, List.find?, ha', h]
      · have h2 : (a.1 == ip') = false := by simpa using ha'
        simp [List.filter_cons, h1, List.find?, h2, ih]

/-- One middleware pass inside a live window neither wipes the table nor
changes the reset instant, each outcome is forward-or-fixed-429, and the
per-IP count tracks exactly the forwarded requests. -/
theorem rateLimitStep_spec (maxR win : Nat) (st : RLState) (ip : String) (now : Nat)
    (hwin : now ≤ st.lastReset + win) :
    ((rateLimitStep maxR win st ip now).1.lastReset = st.lastReset) ∧
    ((rateLimitStep maxR win st ip now).2 = .forwarded ∨
      (rateLimitStep maxR win st ip now).2 = .rejected "Rate limit exceeded" win) ∧
    (∀ ip', rlLookup (rateLimitStep maxR win st ip now).1.counts ip' =
      rlLookup st.counts ip' +
        (if (ip' == ip) = true ∧ (rateLimitStep maxR win st ip now).2 = .forwarded
         then 1 else 0)) := by
  have hreset : ¬(now - st.lastReset > win) := by omega
  by_cases hge : rlLookup st.counts ip ≥ maxR
  · refine ⟨by simp [rateLimitStep, hreset, hge], Or.inr (by simp [rateLimitStep, hreset, hge]), ?_⟩
    intro ip'
    simp [rateLimitStep, hreset, hge]
  · refine ⟨by simp [rateLimitStep, hreset, hge], Or.inl (by simp [rateLimitStep, hreset, hge]), ?_⟩
    intro ip'
    by_cases hip : ip' = ip
    · subst hip
      simp [rateLimitStep, hreset, hge, rlLookup_rlIncr_self]
    · simp [rateLimitStep, hreset, hge, rlLookup_rlIncr_ne st.counts ip ip' hip, hip]

/-- The run-level invariant: inside one window, the final per-IP count equals
the initial count plus the forwarded requests of that IP, the reset instant
never moves, and every outcome is forward-or-fixed-429. -/
theorem rateLimitRun_spec (maxR win : Nat) :
    ∀ (evs : List (String × Nat)) (st : RLState),
    (∀ e ∈ evs, e.2 ≤ st.lastReset + win) →
    ((rateLimitRun maxR win st evs).1.lastReset = st.lastReset) ∧
    (∀ ip, rlLookup (rateLimitRun maxR win st evs).1.counts ip =
      rlLookup st.counts ip +
        ((rateLimitRun maxR win st evs).2.filter (isForwardedFrom ip)).length) ∧
    (∀ p ∈ (rateLimitRun maxR win st evs).2,
      p.2 = .forwarded ∨ p.2 = .rejected "Rate limit exceeded" win) := by
  intro evs
  induction evs with
  | nil => intro st _; exact ⟨rfl, fun ip => by simp [rateLimitRun], by simp [rateLimitRun]⟩
  | cons e rest ih =>
    intro st hw
    obtain ⟨hs1, hs2, hs3⟩ := rateLimitStep_spec maxR win st e.1 e.2
      (hw e (List.mem_cons_self e rest))
    have hwrest : ∀ x ∈ rest, x.2 ≤ (rateLimitStep maxR win st e.1 e.2).1.lastReset + win := by
      intro x hx
      rw [hs1]
      exact hw x (List.mem_cons_of_mem e hx)
    obtain ⟨ih1, ih2, ih3⟩ := ih (rateLimitStep maxR win st e.1 e.2).1 hwrest
    refine ⟨?_, ?_, ?_⟩
    · simp only [rateLimitRun]
      rw [ih1, hs1]
    · intro ip
      simp only [rateLimitRun]
      rw [ih2 ip, hs3 ip]
      by_cases hfwd : (rateLimitStep maxR win st e.1 e.2).2 = .forwarded
      · by_cases hip : e.1 = ip
        · have hfilt : isForwardedFrom ip (e, (rateLimitStep maxR win st e.1 e.2).2) = true := by
            simp only [isForwardedFrom, hfwd]
            simp [hip]
          have hc : ((ip == e.1) = true ∧
              (rateLimitStep maxR win st e.1 e.2).2 = RLOutcome.forwarded) := by
            refine ⟨?_, hfwd⟩
            simp [hip]
          rw [List.filter_cons_of_pos hfilt, if_pos hc, List.length_cons]
          omega
        · have hfilt : ¬(isForwardedFrom ip (e, (rateLimitStep maxR win st e.1 e.2).2) = true) := by
            simp [isForwardedFrom, hip]
          have hc : ¬((ip == e.1) = true ∧
              (rateLimitStep maxR win st e.1 e.2).2 = RLOutcome.forwarded) := by
            intro hcc
            have h9 : ip = e.1 := by simpa using hcc.1
            exact hip h9.symm
          rw [List.filter_cons_of_neg hfilt, if_neg hc]
          omega
      · have hfilt : ¬(isForwardedFrom ip (e, (rateLimitStep maxR win st e.1 e.2).2) = true) := by
          simp only [isForwardedFrom, Bool.and_eq_true, not_and]
          intro _
          cases hh : (rateLimitStep maxR win st e.1 e.2).2 with
          | forwarded => exact absurd hh hfwd
          | rejected a b => simp
        have hc : ¬((ip == e.1) = true ∧
            (rateLimitStep maxR win st e.1 e.2).2 = RLOutcome.forwarded) :=
          fun hcc => hfwd hcc.2
        rw [List.filter_cons_of_neg hfilt, if_neg hc]
        omega
    · intro p hp
      simp only [rateLimitRun, List.mem_cons] at hp
      rcases hp with hp | hp
      · rw [hp]
        rcases hs2 with h2 | h2
        · exact Or.inl h2
        · exact Or.inr h2
      · exact ih3 p hp

/-- The per-IP count never exceeds the limit. -/
theorem rateLimitRun_counts_le (maxR win : Nat) :
    ∀ (evs : List (String × Nat)) (st : RLState),
    (∀ e ∈ evs, e.2 ≤ st.lastReset + win) →
    (∀ ip, rlLookup st.counts ip ≤ maxR) →
    ∀ ip, rlLookup (rateLimitRun maxR win st evs).1.counts ip ≤ maxR := by
  intro evs
  induction evs with
  | nil => intro st _ hle ip; simpa [rateLimitRun] using hle ip
  | cons e rest ih =>
    intro st hw hle ip
    obtain ⟨hs1, _, hs3⟩ := rateLimitStep_spec maxR win st e.1 e.2
      (hw e (List.mem_cons_self e rest))
    have hwrest : ∀ x ∈ rest, x.2 ≤ (rateLimitStep maxR win st e.1 e.2).1.lastReset + win := by
      intro x hx
      rw [hs1]
      exact hw x (List.mem_cons_of_mem e hx)
    have hle' : ∀ ip', rlLookup (rateLimitStep maxR win st e.1 e.2).1.counts ip' ≤ maxR := by
      intro ip'
      rw [hs3 ip']
      by_cases hc : (ip' == e.1) = true ∧
          (rateLimitStep maxR win st e.1 e.2).2 = RLOutcome.forwarded
      · rw [if_pos hc]
        -- a step only forwards when the count was strictly below the limit
        have hstep : rlLookup st.counts e.1 < maxR := by
          by_contra hge
          have hge' : rlLookup st.counts e.1 ≥ maxR := by omega
          have : (rateLimitStep maxR win st e.1 e.2).2 =
              .rejected "Rate limit exceeded" win := by
            have hreset : ¬(e.2 - st.lastReset > win) := by
              have := hw e (List.mem_cons_self e rest)
              omega
            simp [rateLimitStep, hreset, hge']
          rw [this] at hc
          cases hc.2
        have heq : ip' = e.1 := by simpa using hc.1
        rw [heq]
        omega
      · rw [if_neg hc]
        simpa using hle ip'
    exact ih (rateLimitStep maxR win st e.1 e.2).1 hwrest hle' ip

/-- **C7.** Starting a fresh fixed window at `t0` with the default config
(100 requests per 60-second window): over any request sequence that falls
inside the window, at most 100 requests from each client IP are forwarded,
and every non-forwarded request is answered with the fixed
`429 {error: "Rate limit exceeded", retry_after: 60}` rejection (and is not
forwarded). -/
theorem claim_C7 (t0 : Nat) (evs : List (String × Nat))
    (hw : ∀ e ∈ evs, e.2 ≤ t0 + defaultBatchingConfig.rateLimitWindowSec) :
    (∀ ip, ((rateLimitRun defaultBatchingConfig.rateLimit
        defaultBatchingConfig.rateLimitWindowSec ⟨[], t0⟩ evs).2.filter
        (isForwardedFrom ip)).length ≤ defaultBatchingConfig.rateLimit) ∧
    (∀ p ∈ (rateLimitRun defaultBatchingConfig.rateLimit
        defaultBatchingConfig.rateLimitWindowSec ⟨[], t0⟩ evs).2,
      p.2 ≠ .forwarded →
      p.2 = .rejected "Rate limit exceeded" defaultBatchingConfig.rateLimitWindowSec) := by
  have hw' : ∀ e ∈ evs, e.2 ≤ (⟨[], t0⟩ : RLState).lastReset +
      defaultBatchingConfig.rateLimitWindowSec := hw
  obtain ⟨_, h2, h3⟩ := rateLimitRun_spec defaultBatchingConfig.rateLimit
    defaultBatchingConfig.rateLimitWindowSec evs ⟨[], t0⟩ hw'
  constructor
  · intro ip
    have hle := rateLimitRun_counts_le defaultBatchingConfig.rateLimit
      defaultBatchingConfig.rateLimitWindowSec evs ⟨[], t0⟩ hw'
      (fun ip' => by simp [rlLookup]) ip
    have h2' := h2 ip
    have h0 : rlLookup (⟨[], t0⟩ : RLState).counts ip = 0 := rfl
    rw [h0] at h2'
    omega
  · intro p hp hnf
    rcases h3 p hp with hfwd | hrej
    · exact absurd hfwd hnf
    · exact hrej

/-- A closed instance of C7: 101 same-IP requests at the window start forward
at most 100. -/
theorem claim_C7_witness :
    ((rateLimitRun defaultBatchingConfig.rateLimit
        defaultBatchingConfig.rateLimitWindowSec ⟨[], 0⟩
        (List.replicate 101 ("10.0.0.1", 0))).2.filter
      (isForwardedFrom "10.0.0.1")).length ≤ defaultBatchingConfig.rateLimit :=
  (claim_C7 0 (List.replicate 101 ("10.0.0.1", 0))
    (fun e he => by
      have : e = ("10.0.0.1", 0) := List.eq_of_mem_replicate he
      rw [this]
      exact Nat.zero_le _)).1 "10.0.0.1"

end MsLib
